import Mathlib

/-!
Verification of the bootstrap / lifecycle orchestrator in
`crates/arroyo-bin/src/main.rs`.

The Rust code is shallowly embedded: the environment's nondeterminism
(the result of each TCP connection attempt, the success of each schema
migration, the identity-query outcome) is passed in explicitly as data,
and the async control flow of each function is rendered as a pure
function over that data.  Time is modelled in milliseconds; connection
attempts are treated as instantaneous, so elapsed time is exactly the
sum of the 500 ms backoff sleeps, which is the quantity the spec's
timing claims are about.
-/

namespace Arroyo

/-- `pat` is a prefix of `text` (over character lists). -/
def charsStartWith : List Char → List Char → Bool
  | [], _ => true
  | _ :: _, [] => false
  | p :: ps, c :: cs => p == c && charsStartWith ps cs

/-- `pat` occurs somewhere in `text` (over character lists). -/
def charsContain (pat : List Char) : List Char → Bool
  | [] => charsStartWith pat []
  | c :: cs => charsStartWith pat (c :: cs) || charsContain pat cs

/-- `s.contains(pat)` for strings, as used by the Rust code's
`e.to_string().contains("authentication")` check: true iff `pat`
occurs as a substring of `s`. -/
def containsSubstr (s pat : String) : Bool :=
  charsContain pat.data s.data

/-- `s` contains `sub` as a substring, as a proposition witnessed by an
explicit decomposition (used for claims about the content of error
messages built by concatenation). -/
def ContainsStr (s sub : String) : Prop :=
  ∃ pre post, s = pre ++ (sub ++ post)

/-- The result of one connection attempt by the environment:
`tokio_postgres::Config::connect` either yields a client/connection
pair (modelled by a numeric handle) or an error whose `Display` text is
`msg`. -/
inductive AttemptResult where
  | ok (handle : Nat)
  | err (msg : String)
deriving DecidableEq, Repr

/-- Observable result of running the `connect` loop of `main.rs`
against a finite prefix of the environment's attempt results.
`attemptsUsed` counts connection attempts made; `elapsedMs` is the
total time slept (500 ms per retry).  `pending` means the modelled
attempt list was exhausted while the loop was still going (the real
loop would keep retrying). -/
inductive ConnRes where
  | connected (handle attemptsUsed elapsedMs : Nat)
  | fatal (cause : String) (attemptsUsed elapsedMs : Nat)
  | pending (attemptsUsed elapsedMs : Nat)
deriving DecidableEq, Repr

/-- The retry loop of `connect` (main.rs lines 157-180), with
accumulators for attempts made and time slept so far.  On an error the
code retries (after a 500 ms sleep) exactly when the error text does
not contain "authentication" and the `retry` flag is set; otherwise it
bails out of the loop with the error. -/
def runConnect (retry : Bool) (attempts elapsed : Nat) :
    List AttemptResult → ConnRes
  | [] => .pending attempts elapsed
  | .ok h :: _ => .connected h (attempts + 1) elapsed
  | .err m :: rest =>
    if !containsSubstr m "authentication" && retry then
      runConnect retry (attempts + 1) (elapsed + 500) rest
    else
      .fatal m (attempts + 1) elapsed

/-- `connect(retry)` from the start of the loop. -/
def connect (retry : Bool) (env : List AttemptResult) : ConnRes :=
  runConnect retry 0 0 env

/-- The distinct error classes `migrate` can return, one per `anyhow!`
site in main.rs. -/
inductive MigrateErr where
  | timeout
  | connectFailed (cfg cause : String)
  | migrationFailed (cfg : String) (version : Nat)
deriving DecidableEq, Repr

/-- The user-visible message of each `migrate` error (`cfg` is the
`Display` form of the loaded `DatabaseConfig`). -/
def MigrateErr.message : MigrateErr → String
  | .timeout => "Timed out waiting for database to connect after deadline has elapsed"
  | .connectFailed cfg cause =>
    "Failed to connect to database " ++ (cfg ++ (": " ++ cause))
  | .migrationFailed cfg v =>
    "Failed to run migrations on " ++ (cfg ++ (": migration version " ++ (toString v ++ " failed")))

/-- Result of the connection phase of `migrate`: either a client
handle, a `migrate`-level error, or out-of-model (the finite attempt
list was exhausted at a point where the real program would still be
retrying with the deadline not yet reached). -/
inductive ConnectPhase where
  | ok (handle : Nat)
  | err (e : MigrateErr)
  | outOfModel
deriving DecidableEq, Repr

/-- The connection phase of `migrate` (main.rs lines 186-193).  With
`wait = some w` the code runs `timeout(Duration::from_secs(w), connect(true))`;
tokio's `Timeout` polls the inner future first, so the future's result
wins whenever it completes at or before the deadline, and the timer
wins whenever the future is still pending strictly after the deadline.
With `wait = none` the code runs `connect(false)` with no timer. -/
def migrateConnectPhase (cfg : String) (wait : Option Nat)
    (env : List AttemptResult) : ConnectPhase :=
  match wait with
  | some w =>
    match connect true env with
    | .connected h _ t => if t ≤ 1000 * w then .ok h else .err .timeout
    | .fatal m _ t => if t ≤ 1000 * w then .err (.connectFailed cfg m) else .err .timeout
    | .pending _ t => if 1000 * w < t then .err .timeout else .outOfModel
  | none =>
    match connect false env with
    | .connected h _ _ => .ok h
    | .fatal m _ _ => .err (.connectFailed cfg m)
    | .pending _ _ => .outOfModel

/-- A migration definition: a version number and a name (the embedded
migration files of `mod migrations`). -/
structure Migration where
  version : Nat
  name : String
deriving DecidableEq, Repr

/-- Report of one migration run: the records newly applied in order,
the versions attempted in order, the version that failed to apply (if
any), and the pending migrations never attempted because of that
failure. -/
structure RunReport where
  applied : List Migration
  attempted : List Nat
  failed : Option Nat
  skipped : List Migration
deriving DecidableEq, Repr

/-- Insert a migration into a version-sorted list. -/
def insertByVersion (m : Migration) : List Migration → List Migration
  | [] => [m]
  | x :: xs =>
    if m.version ≤ x.version then m :: x :: xs else x :: insertByVersion m xs

/-- Sort migrations by ascending version. -/
def sortByVersion : List Migration → List Migration
  | [] => []
  | m :: ms => insertByVersion m (sortByVersion ms)

/-- The highest version recorded in the ledger (0 when empty; real
versions start at 1). -/
def highestVersion (ledger : List Nat) : Nat := ledger.foldr max 0

/-- Modelled from the spec: the core of the `refinery` migration
runner invoked by `migrations::migrations::runner().run_async(..)`,
whose code is outside this repository's `src/`.  Per the spec it
applies the pending migrations one at a time in ascending version
order and, if any individual migration fails to apply, stops without
attempting the rest of the batch.  `applyOk v` says whether applying
the migration of version `v` succeeds in this run. -/
def applyPending (applyOk : Nat → Bool) : List Migration → RunReport
  | [] => ⟨[], [], none, []⟩
  | m :: rest =>
    if applyOk m.version then
      let r := applyPending applyOk rest
      ⟨m :: r.applied, m.version :: r.attempted, r.failed, r.skipped⟩
    else
      ⟨[], [m.version], some m.version, rest⟩

/-- Modelled from the spec: the pending set is every defined migration
whose version exceeds the highest version recorded in the ledger,
taken in ascending version order. -/
def pendingMigrations (defs : List Migration) (ledger : List Nat) : List Migration :=
  sortByVersion (defs.filter (fun m => highestVersion ledger < m.version))

/-- Modelled from the spec: one full run of the migration runner
against a ledger, returning the report and the updated ledger (each
newly applied migration is recorded). -/
def runMigrations (applyOk : Nat → Bool) (defs : List Migration)
    (ledger : List Nat) : RunReport × List Nat :=
  let r := applyPending applyOk (pendingMigrations defs ledger)
  (r, ledger ++ r.applied.map (fun m => m.version))

/-- Result of the `migrate` subcommand. -/
inductive MigrateResult where
  | success (applied : List Migration) (newLedger : List Nat)
  | error (e : MigrateErr)
  | outOfModel
deriving DecidableEq, Repr

/-- The `migrate` function (main.rs lines 183-224): connection phase
(with or without the `--wait` deadline), then the migration runner;
a runner failure is wrapped in an error naming the database target,
success logs the applied migrations and returns `Ok(())`. -/
def migrate (cfg : String) (wait : Option Nat) (env : List AttemptResult)
    (applyOk : Nat → Bool) (defs : List Migration) (ledger : List Nat) :
    MigrateResult :=
  match migrateConnectPhase cfg wait env with
  | .outOfModel => .outOfModel
  | .err e => .error e
  | .ok _ =>
    let run := runMigrations applyOk defs ledger
    match run.1.failed with
    | some v => .error (.migrationFailed cfg v)
    | none => .success run.1.applied run.2

/-- The exit code of the process for the `Migrate` arm of `main`
(main.rs lines 92-97): `error!` then `exit(1)` on `Err`, and falling
off `main` (exit 0) on `Ok`. -/
def migrateCommandExit : MigrateResult → Option Nat
  | .success _ _ => some 0
  | .error _ => some 1
  | .outOfModel => none

/-- How `db_pool` reacts to each of its three failure points. -/
inductive AbortBehavior where
  | loggedErrorExit (code : Nat)
  | panicAbort (msg : String)
deriving DecidableEq, Repr

/-- Outcome of `db_pool` (main.rs lines 104-142). -/
inductive PoolOutcome where
  | ok (poolId : Nat) (clusterId : String)
  | abort (b : AbortBehavior)
deriving DecidableEq, Repr

/-- `db_pool`: build the pool (`createOk` gives the fresh pool id on
success), take a connection from it, and run the one-time
`select id from cluster_info` identity query (`identity` is its result).
Pool-creation failure and connection failure are handled with `error!`
plus `exit(1)`; identity-query failure is handled with `panic!`
("Failed to get cluster info ..."); on success the cluster id is
published and the pool returned. -/
def db_pool (createOk : Option Nat) (connOk : Bool)
    (identity : Option String) : PoolOutcome :=
  match createOk with
  | none => .abort (.loggedErrorExit 1)
  | some pid =>
    if connOk then
      match identity with
      | some uuid => .ok pid uuid
      | none => .abort (.panicAbort "Failed to get cluster info")
    else
      .abort (.loggedErrorExit 1)

/-- The control-plane service selector (main.rs lines 53-59). -/
inductive CPService where
  | Api
  | Compiler
  | Controller
  | All
deriving DecidableEq, Repr

/-- `CPService::name` (main.rs lines 62-69). -/
def CPService.name : CPService → String
  | .Api => "api"
  | .Compiler => "compiler"
  | .Controller => "controller"
  | .All => "cluster"

/-- Modelled from the spec: `ports::API_ADMIN`, the fixed admin port
constant from `arroyo-types` (outside this repository's `src/`).  The
spec only says it is a fixed port for control-plane roles; the numeric
value is immaterial to the claims, which reference this name. -/
def API_ADMIN : Nat := 8001

/-- The work handed to a started task or guard. -/
inductive TaskWork where
  | adminServer (role : String) (port : Nat)
  | apiServer (pool : Nat)
  | compilerService
  | controllerServer (pool : Nat)
  | workerServer
  | nodeServer
deriving DecidableEq, Repr

/-- Observable startup events of the service-dispatch functions, in
program order.  `poolCreated`/`clusterIdFetched` are the two halves of
`db_pool`; `spawnTask`/`guardStart` are `Shutdown::spawn_task` and
`Shutdown::guard`; `rawSpawn` is a bare `tokio::spawn`. -/
inductive StartEvent where
  | initLogging (name : String)
  | poolCreated (poolId : Nat)
  | clusterIdFetched
  | logEvent (service : String)
  | shutdownNew (name : String)
  | spawnTask (name : String) (work : TaskWork)
  | guardStart (name : String) (work : TaskWork)
  | rawSpawn (work : TaskWork)
  | waitForShutdown (graceSecs : Nat)
deriving DecidableEq, Repr

/-- `start_control_plane` (main.rs lines 226-261) as its sequence of
startup events.  `db_pool()` creates the single pool (id 0) and
fetches the cluster identity; the api unit receives `pool.clone()`
(a handle to the same pool, hence the same id 0), the compiler unit is
started by `arroyo_compiler_service::start_service()` with no pool
argument, and the controller receives the pool by move (id 0) under a
shutdown guard. -/
def start_control_plane (service : CPService) : List StartEvent :=
  [.initLogging service.name,
   .poolCreated 0,
   .clusterIdFetched,
   .logEvent service.name,
   .shutdownNew service.name,
   .spawnTask "admin" (.adminServer service.name API_ADMIN)]
  ++ (if service = .Api ∨ service = .All then
        [.spawnTask "api" (.apiServer 0)] else [])
  ++ (if service = .Compiler ∨ service = .All then
        [.spawnTask "compiler" .compilerService] else [])
  ++ (if service = .Controller ∨ service = .All then
        [.guardStart "controller" (.controllerServer 0)] else [])
  ++ [.waitForShutdown 30]

/-- `start_worker` (main.rs lines 263-283): the worker server takes a
shutdown guard at construction, logging is initialized with the
worker id and job id, the admin server is spawned under the name
"admin" with role "worker" on the ephemeral port 0, and the server
itself runs on a bare `tokio::spawn`. -/
def start_worker (workerId jobId : String) : List StartEvent :=
  [.shutdownNew "worker",
   .guardStart "worker" .workerServer,
   .initLogging ("worker-" ++ (workerId ++ ("-" ++ jobId))),
   .spawnTask "admin" (.adminServer "worker" 0),
   .rawSpawn .workerServer,
   .waitForShutdown 30]

/-- `start_node` (main.rs lines 285-294): the node server takes a
shutdown guard, logging is initialized with the node id, and the admin
server is spawned with role "worker" on the ephemeral port 0. -/
def start_node (nodeId : String) : List StartEvent :=
  [.shutdownNew "node",
   .guardStart "node" .nodeServer,
   .initLogging ("node-" ++ nodeId),
   .spawnTask "admin" (.adminServer "worker" 0),
   .waitForShutdown 30]

/-- The pool handle a unit of work received, if any. -/
def TaskWork.poolHandle : TaskWork → Option Nat
  | .apiServer p => some p
  | .controllerServer p => some p
  | _ => none

/-- The started units of a trace: task or guard name paired with the
pool handle its work received. -/
def unitsOf (t : List StartEvent) : List (String × Option Nat) :=
  t.filterMap fun e =>
    match e with
    | .spawnTask n w => some (n, w.poolHandle)
    | .guardStart n w => some (n, w.poolHandle)
    | _ => none

/-- Number of connection pools created in a trace. -/
def poolsCreated (t : List StartEvent) : Nat :=
  (t.filter fun e =>
    match e with
    | .poolCreated _ => true
    | _ => false).length

/-- The admin-server work items spawned in a trace. -/
def adminSpawnOf (t : List StartEvent) : List TaskWork :=
  t.filterMap fun e =>
    match e with
    | .spawnTask _ (.adminServer r p) => some (.adminServer r p)
    | _ => none

/-- The names logging was initialized with in a trace. -/
def loggingNamesOf (t : List StartEvent) : List String :=
  t.filterMap fun e =>
    match e with
    | .initLogging n => some n
    | _ => none

/-- Is this event the start of a task or guard (a unit of work handed
to the runtime)? -/
def StartEvent.isUnitStart : StartEvent → Bool
  | .spawnTask _ _ => true
  | .guardStart _ _ => true
  | .rawSpawn _ => true
  | _ => false

/-- Pool acquisition (creation and identity fetch) completes before
any task or guard is started: the cluster-identity fetch occurs, the
pool creation precedes it, and no unit of work starts before it. -/
def acquisitionBeforeUnitStarts (t : List StartEvent) : Bool :=
  t.contains .clusterIdFetched &&
  (t.takeWhile fun e => !(e == .clusterIdFetched)).contains (.poolCreated 0) &&
  (t.takeWhile fun e => !(e == .clusterIdFetched)).all fun e => !e.isUnitStart

end Arroyo

namespace Arroyo

example : containsSubstr "password authentication failed" "authentication" = true := by decide
example : containsSubstr "connection refused" "authentication" = false := by decide

example :
    connect true [.err "connection refused", .err "connection refused", .ok 7] =
      .connected 7 3 1000 := by decide

example :
    connect true [.err "password authentication failed for user"] =
      .fatal "password authentication failed for user" 1 0 := by decide

example :
    connect false [.err "connection refused", .ok 7] =
      .fatal "connection refused" 1 0 := by decide

example :
    migrateConnectPhase "db" (some 1) [.err "connection refused", .err "connection refused", .err "connection refused"] =
      .err .timeout := by decide

/-! ### Helper lemmas -/

theorem runConnect_transient :
    ∀ (ts : List String) (l : List AttemptResult) (a t : Nat),
      (∀ m ∈ ts, containsSubstr m "authentication" = false) →
      runConnect true a t (List.map AttemptResult.err ts ++ l) =
        runConnect true (a + ts.length) (t + 500 * ts.length) l
  | [], _, a, t, _ => by simp
  | m :: ms, l, a, t, h => by
    have hm : containsSubstr m "authentication" = false := h m (by simp)
    have hms : ∀ x ∈ ms, containsSubstr x "authentication" = false :=
      fun x hx => h x (by simp [hx])
    have ih := runConnect_transient ms l (a + 1) (t + 500) hms
    simp only [List.map, List.cons_append, List.append_eq, runConnect, hm,
      Bool.not_false, Bool.true_and, if_true] at *
    rw [ih]
    have e1 : a + 1 + ms.length = a + (m :: ms).length := by
      simp [List.length_cons]; omega
    have e2 : t + 500 + 500 * ms.length = t + 500 * (m :: ms).length := by
      simp [List.length_cons]; ring
    rw [e1, e2]

theorem mem_insertByVersion {x m : Migration} {l : List Migration} :
    x ∈ insertByVersion m l ↔ x = m ∨ x ∈ l := by
  induction l with
  | nil => simp [insertByVersion]
  | cons a tl ih =>
    by_cases hm : m.version ≤ a.version
    · simp [insertByVersion, hm]
    · simp [insertByVersion, hm, ih]
      tauto

theorem mem_sortByVersion {x : Migration} : ∀ {l : List Migration},
    x ∈ sortByVersion l ↔ x ∈ l
  | [] => Iff.rfl
  | m :: tl => by
    rw [sortByVersion, mem_insertByVersion, mem_sortByVersion, List.mem_cons]

theorem insertByVersion_perm (m : Migration) :
    ∀ (l : List Migration), List.Perm (insertByVersion m l) (m :: l)
  | [] => List.Perm.refl _
  | a :: tl => by
    rw [insertByVersion]
    by_cases hm : m.version ≤ a.version
    · rw [if_pos hm]
    · rw [if_neg hm]
      exact ((insertByVersion_perm m tl).cons a).trans (List.Perm.swap m a tl)

theorem sortByVersion_perm : ∀ (l : List Migration), List.Perm (sortByVersion l) l
  | [] => List.Perm.refl _
  | m :: tl =>
    (insertByVersion_perm m (sortByVersion tl)).trans ((sortByVersion_perm tl).cons m)

theorem pairwise_insertByVersion (m : Migration) :
    ∀ {l : List Migration},
      List.Pairwise (fun a b => a.version ≤ b.version) l →
      List.Pairwise (fun a b => a.version ≤ b.version) (insertByVersion m l)
  | [], _ => by simp [insertByVersion]
  | x :: xs, h => by
    rw [insertByVersion]
    rcases h with _ | ⟨hx, hxs⟩
    by_cases hmx : m.version ≤ x.version
    · rw [if_pos hmx]
      refine List.Pairwise.cons ?_ (List.Pairwise.cons hx hxs)
      intro y hy
      rcases List.mem_cons.mp hy with rfl | hy
      · exact hmx
      · exact Nat.le_trans hmx (hx y hy)
    · rw [if_neg hmx]
      have hxm : x.version ≤ m.version := Nat.le_of_not_le hmx
      refine List.Pairwise.cons ?_ (pairwise_insertByVersion m hxs)
      intro y hy
      rcases mem_insertByVersion.mp hy with rfl | hy
      · exact hxm
      · exact hx y hy

theorem sortByVersion_sorted : ∀ (l : List Migration),
    List.Pairwise (fun a b => a.version ≤ b.version) (sortByVersion l)
  | [] => List.Pairwise.nil
  | m :: tl => pairwise_insertByVersion m (sortByVersion_sorted tl)

theorem le_highestVersion_of_mem : ∀ {l : List Nat} {v : Nat},
    v ∈ l → v ≤ highestVersion l
  | [], _, hv => absurd hv (List.not_mem_nil _)
  | a :: tl, v, hv => by
    rcases List.mem_cons.mp hv with rfl | hv
    · exact Nat.le_max_left _ _
    · exact Nat.le_trans (le_highestVersion_of_mem hv) (Nat.le_max_right _ _)

theorem highestVersion_le_append :
    ∀ (a b : List Nat), highestVersion a ≤ highestVersion (a ++ b)
  | [], _ => Nat.zero_le _
  | x :: a, b => by
    simp only [highestVersion, List.foldr, List.cons_append]
    exact max_le_max (Nat.le_refl x) (highestVersion_le_append a b)

theorem applyPending_of_failed_none (applyOk : Nat → Bool) :
    ∀ (l : List Migration), (applyPending applyOk l).failed = none →
      (applyPending applyOk l).applied = l ∧
      (applyPending applyOk l).attempted = l.map Migration.version ∧
      (applyPending applyOk l).skipped = []
  | [], _ => ⟨rfl, rfl, rfl⟩
  | m :: rest, h => by
    cases hm : applyOk m.version with
    | false => simp [applyPending, hm] at h
    | true =>
      simp only [applyPending, hm, if_true] at h ⊢
      obtain ⟨h1, h2, h3⟩ := applyPending_of_failed_none applyOk rest h
      simp [h1, h2, h3]

theorem applyPending_of_failed_some (applyOk : Nat → Bool) :
    ∀ (l : List Migration) (v : Nat), (applyPending applyOk l).failed = some v →
      l.map Migration.version =
        (applyPending applyOk l).attempted ++
          ((applyPending applyOk l).skipped).map Migration.version ∧
      (applyPending applyOk l).attempted =
        ((applyPending applyOk l).applied).map Migration.version ++ [v]
  | [], v, h => by simp [applyPending] at h
  | m :: rest, v, h => by
    cases hm : applyOk m.version with
    | false =>
      simp only [applyPending, hm, if_false] at h ⊢
      cases h
      simp [applyPending, hm]
    | true =>
      simp only [applyPending, hm, if_true] at h ⊢
      obtain ⟨h1, h2⟩ := applyPending_of_failed_some applyOk rest v h
      simp [h1, h2]

theorem pendingMigrations_after_run (applyOk : Nat → Bool) (defs : List Migration)
    (ledger : List Nat)
    (h : (runMigrations applyOk defs ledger).1.failed = none) :
    pendingMigrations defs (runMigrations applyOk defs ledger).2 = [] := by
  simp only [runMigrations] at h ⊢
  obtain ⟨happ, -, -⟩ := applyPending_of_failed_none applyOk _ h
  rw [happ]
  have hfil : defs.filter
      (fun m => highestVersion
        (ledger ++ (pendingMigrations defs ledger).map Migration.version) < m.version) = [] := by
    rw [List.filter_eq_nil_iff]
    intro m hmem
    simp only [decide_eq_true_eq, Nat.not_lt]
    by_cases hv : m.version ≤ highestVersion ledger
    · exact Nat.le_trans hv (highestVersion_le_append _ _)
    · have hlt : highestVersion ledger < m.version := Nat.lt_of_not_le hv
      have hpend : m ∈ pendingMigrations defs ledger := by
        rw [pendingMigrations, mem_sortByVersion, List.mem_filter]
        exact ⟨hmem, by simpa using hlt⟩
      have hmemv : m.version ∈
          ledger ++ (pendingMigrations defs ledger).map Migration.version := by
        rw [List.mem_append]
        exact Or.inr (List.mem_map_of_mem Migration.version hpend)
      exact le_highestVersion_of_mem hmemv
  rw [pendingMigrations, hfil]
  rfl

theorem runMigrations_of_pending_nil (applyOk : Nat → Bool) (defs : List Migration)
    (ledger : List Nat) (h : pendingMigrations defs ledger = []) :
    (runMigrations applyOk defs ledger).1.applied = [] ∧
    (runMigrations applyOk defs ledger).1.attempted = [] := by
  simp [runMigrations, h, applyPending]

/-! ### Claims -/

/-- C1: for every connection attempt whose error text contains
"authentication", the `connect` loop bails out at that attempt —
exactly one more attempt is consumed, no time is slept, the rest of
the environment is never consulted — for either value of the retry
flag; and the failure propagates through the `migrate` connection
phase both with a deadline and without one. -/
theorem connect_auth_error_single_attempt (retry : Bool) (cfg m : String)
    (rest : List AttemptResult) (w a t : Nat)
    (hauth : containsSubstr m "authentication" = true) :
    runConnect retry a t (.err m :: rest) = .fatal m (a + 1) t ∧
    connect retry (.err m :: rest) = .fatal m 1 0 ∧
    migrateConnectPhase cfg (some w) (.err m :: rest) = .err (.connectFailed cfg m) ∧
    migrateConnectPhase cfg none (.err m :: rest) = .err (.connectFailed cfg m) := by
  refine ⟨?_, ?_, ?_, ?_⟩ <;>
    simp [runConnect, connect, migrateConnectPhase, hauth]

/-- Witness for C1 at a concrete authentication failure (note the
subsequent successful attempt in the environment is never reached). -/
theorem connect_auth_error_single_attempt_witness :
    containsSubstr "password authentication failed for user" "authentication" = true ∧
    (runConnect true 0 0 [.err "password authentication failed for user", .ok 9] =
        .fatal "password authentication failed for user" 1 0 ∧
      connect true [.err "password authentication failed for user", .ok 9] =
        .fatal "password authentication failed for user" 1 0 ∧
      migrateConnectPhase "db" (some 5)
          [.err "password authentication failed for user", .ok 9] =
        .err (.connectFailed "db" "password authentication failed for user") ∧
      migrateConnectPhase "db" none
          [.err "password authentication failed for user", .ok 9] =
        .err (.connectFailed "db" "password authentication failed for user")) :=
  ⟨by decide,
   connect_auth_error_single_attempt true "db" "password authentication failed for user"
     [.ok 9] 5 0 0 (by decide)⟩

/-- C2: with the retry flag set (the `--wait` path), every transient
(non-authentication) failure is followed by a fixed 500 ms sleep and a
retry, with no bound on the number of retries; once the supplied
deadline has elapsed while still retrying, `migrate` returns the
timeout error — an error distinct from a connection error — and the
process exits with code 1. -/
theorem connect_wait_retries_until_deadline (cfg : String) (hdl : Nat)
    (ts : List String) (w : Nat) (applyOk : Nat → Bool)
    (defs : List Migration) (ledger : List Nat)
    (htrans : ∀ m ∈ ts, containsSubstr m "authentication" = false) :
    connect true (List.map AttemptResult.err ts ++ [.ok hdl]) =
      .connected hdl (ts.length + 1) (500 * ts.length) ∧
    connect true (List.map AttemptResult.err ts) =
      .pending ts.length (500 * ts.length) ∧
    (1000 * w < 500 * ts.length →
      migrate cfg (some w) (List.map AttemptResult.err ts) applyOk defs ledger =
          .error .timeout ∧
      migrateCommandExit
          (migrate cfg (some w) (List.map AttemptResult.err ts) applyOk defs ledger) =
        some 1) ∧
    (∀ c : String, MigrateErr.timeout ≠ MigrateErr.connectFailed cfg c) := by
  have h1 := runConnect_transient ts [.ok hdl] 0 0 htrans
  have h2 := runConnect_transient ts [] 0 0 htrans
  simp only [Nat.zero_add, List.append_nil] at h1 h2
  have hc1 : connect true (List.map AttemptResult.err ts ++ [.ok hdl]) =
      .connected hdl (ts.length + 1) (500 * ts.length) := by
    rw [connect, h1]; rfl
  have hc2 : connect true (List.map AttemptResult.err ts) =
      .pending ts.length (500 * ts.length) := by
    rw [connect, h2]; rfl
  refine ⟨hc1, hc2, ?_, ?_⟩
  · intro hlt
    have hphase : migrateConnectPhase cfg (some w) (List.map AttemptResult.err ts) =
        .err MigrateErr.timeout := by
      simp only [migrateConnectPhase, hc2]
      rw [if_pos hlt]
    constructor
    · simp [migrate, hphase]
    · simp [migrate, hphase, migrateCommandExit]
  · intro c
    simp

/-- Witness for C2: a single transient failure against a 0-second
deadline times out with exit code 1. -/
theorem connect_wait_retries_until_deadline_witness :
    (∀ m ∈ (["connection refused"] : List String),
        containsSubstr m "authentication" = false) ∧
    1000 * 0 < 500 * (["connection refused"] : List String).length ∧
    migrate "db" (some 0) [.err "connection refused"] (fun _ => true) [] [] =
      .error .timeout ∧
    migrateCommandExit
        (migrate "db" (some 0) [.err "connection refused"] (fun _ => true) [] []) =
      some 1 := by
  have h := (connect_wait_retries_until_deadline "db" 7 ["connection refused"] 0
    (fun _ => true) [] [] (by decide)).2.2.1 (by decide)
  exact ⟨by decide, by decide, h.1, h.2⟩

/-- C3: when `migrate` is invoked without `--wait`, `connect` runs with
the retry flag off: the first failure — authentication or transient —
ends the loop after that single attempt with no sleep, and `migrate`
propagates it as a connection error, exiting with code 1. -/
theorem migrate_no_wait_single_attempt (cfg m : String)
    (rest : List AttemptResult) (a t : Nat) (applyOk : Nat → Bool)
    (defs : List Migration) (ledger : List Nat) :
    runConnect false a t (.err m :: rest) = .fatal m (a + 1) t ∧
    connect false (.err m :: rest) = .fatal m 1 0 ∧
    migrate cfg none (.err m :: rest) applyOk defs ledger =
      .error (.connectFailed cfg m) ∧
    migrateCommandExit (migrate cfg none (.err m :: rest) applyOk defs ledger) =
      some 1 := by
  refine ⟨?_, ?_, ?_, ?_⟩ <;>
    simp [runConnect, connect, migrate, migrateConnectPhase, migrateCommandExit]

/-- C4 counterexample: in the `cluster` (CPService::All) dispatch the
compiler unit is started by `arroyo_compiler_service::start_service()`
with no pool argument, so not all three units receive the shared pool
handle. -/
theorem cluster_compiler_receives_no_pool :
    ("compiler", (none : Option Nat)) ∈ unitsOf (start_control_plane .All) ∧
    ("compiler", (some 0 : Option Nat)) ∉ unitsOf (start_control_plane .All) := by
  decide

/-- C4 amended: the `cluster` dispatch constructs exactly one
connection pool, and the api and controller units both receive that
same pool handle (id 0), while the compiler unit (like the admin task)
receives none. -/
theorem cluster_single_pool_shared :
    poolsCreated (start_control_plane .All) = 1 ∧
    unitsOf (start_control_plane .All) =
      [("admin", none), ("api", some 0), ("compiler", none), ("controller", some 0)] := by
  decide

/-- C5 counterexample: when the one-time cluster-identity query inside
`db_pool` fails, the code path is `panic`, not the logged-error plus
exit-code-1 path used by the other fatal classes. -/
theorem db_pool_identity_failure_panics :
    db_pool (some 0) true none = .abort (.panicAbort "Failed to get cluster info") ∧
    db_pool (some 0) true none ≠ .abort (.loggedErrorExit 1) := by decide

/-- C5 amended: a failed identity query aborts the process fatally,
but via a panic (not a tracing error log with exit code 1); the other
two failure points of `db_pool` do use the logged-error-exit-1 path. -/
theorem db_pool_abort_behaviors (pid : Nat) :
    db_pool (some pid) true none = .abort (.panicAbort "Failed to get cluster info") ∧
    db_pool none true none = .abort (.loggedErrorExit 1) ∧
    db_pool (some pid) false none = .abort (.loggedErrorExit 1) :=
  ⟨rfl, rfl, rfl⟩

/-- C6: if any individual migration fails to apply, the pending batch
splits into the attempted prefix (ending at the failed version) and a
suffix that is never attempted; `migrate` reports the failure as a
migration error whose message names the database target, and the
process exits with code 1; with no failure the process exits with
code 0. -/
theorem migrate_failure_stops_batch (cfg : String) (hdl : Nat)
    (applyOk : Nat → Bool) (defs : List Migration) (ledger : List Nat) (v : Nat) :
    ((runMigrations applyOk defs ledger).1.failed = some v →
      (pendingMigrations defs ledger).map Migration.version =
        (runMigrations applyOk defs ledger).1.attempted ++
          ((runMigrations applyOk defs ledger).1.skipped).map Migration.version ∧
      (runMigrations applyOk defs ledger).1.attempted =
        ((runMigrations applyOk defs ledger).1.applied).map Migration.version ++ [v] ∧
      migrate cfg none [.ok hdl] applyOk defs ledger =
        .error (.migrationFailed cfg v) ∧
      ContainsStr (MigrateErr.migrationFailed cfg v).message cfg ∧
      migrateCommandExit (migrate cfg none [.ok hdl] applyOk defs ledger) = some 1) ∧
    ((runMigrations applyOk defs ledger).1.failed = none →
      migrateCommandExit (migrate cfg none [.ok hdl] applyOk defs ledger) = some 0) := by
  constructor
  · intro hfail
    have hfail2 : (applyPending applyOk (pendingMigrations defs ledger)).failed = some v := by
      simpa [runMigrations] using hfail
    obtain ⟨h1, h2⟩ := applyPending_of_failed_some applyOk _ v hfail2
    refine ⟨?_, ?_, ?_, ?_, ?_⟩
    · simpa [runMigrations] using h1
    · simpa [runMigrations] using h2
    · simp [migrate, migrateConnectPhase, connect, runConnect, runMigrations,
        hfail2]
    · exact ⟨"Failed to run migrations on ",
        ": migration version " ++ (toString v ++ " failed"), rfl⟩
    · simp [migrate, migrateConnectPhase, connect, runConnect, runMigrations,
        hfail2, migrateCommandExit]
  · intro hnone
    have hnone2 : (applyPending applyOk (pendingMigrations defs ledger)).failed = none := by
      simpa [runMigrations] using hnone
    simp [migrate, migrateConnectPhase, connect, runConnect, runMigrations,
      hnone2, migrateCommandExit]

/-- Witness for C6: versions 1,2,3 pending with version 2 failing to
apply gives a migration error and exit code 1; an all-successful run
gives exit code 0. -/
theorem migrate_failure_stops_batch_witness :
    (runMigrations (fun x => decide (x ≠ 2)) [⟨1, "a"⟩, ⟨2, "b"⟩, ⟨3, "c"⟩] []).1.failed =
      some 2 ∧
    migrate "db" none [.ok 5] (fun x => decide (x ≠ 2)) [⟨1, "a"⟩, ⟨2, "b"⟩, ⟨3, "c"⟩] [] =
      .error (.migrationFailed "db" 2) ∧
    migrateCommandExit
        (migrate "db" none [.ok 5] (fun x => decide (x ≠ 2))
          [⟨1, "a"⟩, ⟨2, "b"⟩, ⟨3, "c"⟩] []) = some 1 ∧
    (runMigrations (fun _ => true) [⟨1, "a"⟩] []).1.failed = none ∧
    migrateCommandExit (migrate "db" none [.ok 5] (fun _ => true) [⟨1, "a"⟩] []) =
      some 0 := by
  have hf := (migrate_failure_stops_batch "db" 5 (fun x => decide (x ≠ 2))
    [⟨1, "a"⟩, ⟨2, "b"⟩, ⟨3, "c"⟩] [] 2).1 (by decide)
  have hs := (migrate_failure_stops_batch "db" 5 (fun _ => true)
    [⟨1, "a"⟩] [] 2).2 (by decide)
  exact ⟨by decide, hf.2.2.1, hf.2.2.2.2, by decide, hs⟩

/-- C7: running the migration runner a second time against the ledger
produced by a completed first run, with the same migration
definitions, applies and attempts nothing; the first run's applied
list is in ascending version order and, when the defined versions are
distinct, records each version at most once. -/
theorem run_twice_second_empty (applyOk applyOk2 : Nat → Bool)
    (defs : List Migration) (ledger : List Nat)
    (hfirst : (runMigrations applyOk defs ledger).1.failed = none) :
    (runMigrations applyOk2 defs (runMigrations applyOk defs ledger).2).1.applied = [] ∧
    (runMigrations applyOk2 defs (runMigrations applyOk defs ledger).2).1.attempted = [] ∧
    List.Pairwise (fun x y => x.version ≤ y.version)
      (runMigrations applyOk defs ledger).1.applied ∧
    ((defs.map Migration.version).Nodup →
      (((runMigrations applyOk defs ledger).1.applied).map Migration.version).Nodup) := by
  have hpend := pendingMigrations_after_run applyOk defs ledger hfirst
  obtain ⟨happ, -, -⟩ := applyPending_of_failed_none applyOk _
    (by simpa [runMigrations] using hfirst)
  have happlied : (runMigrations applyOk defs ledger).1.applied =
      pendingMigrations defs ledger := by
    simpa [runMigrations] using happ
  obtain ⟨hsecond1, hsecond2⟩ := runMigrations_of_pending_nil applyOk2 defs _ hpend
  refine ⟨hsecond1, hsecond2, ?_, ?_⟩
  · rw [happlied, pendingMigrations]
    exact sortByVersion_sorted _
  · intro hnodup
    rw [happlied, pendingMigrations]
    have hperm :=
      (sortByVersion_perm (defs.filter fun m => highestVersion ledger < m.version)).map
        Migration.version
    have hsub : List.Sublist (defs.filter (fun m => highestVersion ledger < m.version)) defs :=
      List.filter_sublist _
    have hnd := hnodup.sublist (hsub.map Migration.version)
    exact hperm.nodup_iff.mpr hnd

/-- Witness for C7: two successful runs over versions 1 and 2. -/
theorem run_twice_second_empty_witness :
    (runMigrations (fun _ => true) [⟨1, "a"⟩, ⟨2, "b"⟩] []).1.failed = none ∧
    (runMigrations (fun _ => true) [⟨1, "a"⟩, ⟨2, "b"⟩]
        (runMigrations (fun _ => true) [⟨1, "a"⟩, ⟨2, "b"⟩] []).2).1.applied = [] ∧
    List.Pairwise (fun x y => x.version ≤ y.version)
      (runMigrations (fun _ => true) [⟨1, "a"⟩, ⟨2, "b"⟩] []).1.applied := by
  have h := run_twice_second_empty (fun _ => true) (fun _ => true)
    [⟨1, "a"⟩, ⟨2, "b"⟩] [] (by decide)
  exact ⟨by decide, h.1, h.2.2.1⟩

/-- C8: every service dispatch unconditionally spawns exactly one
admin/health task — on the fixed `API_ADMIN` port (with the service's
role name) for the four control-plane dispatches, and on the ephemeral
port 0 for the worker and node dispatches. -/
theorem admin_task_every_dispatch (s : CPService) (workerId jobId nodeId : String) :
    adminSpawnOf (start_control_plane s) = [.adminServer s.name API_ADMIN] ∧
    adminSpawnOf (start_worker workerId jobId) = [.adminServer "worker" 0] ∧
    adminSpawnOf (start_node nodeId) = [.adminServer "worker" 0] := by
  refine ⟨?_, rfl, rfl⟩
  cases s <;> rfl

/-- C9: in every control-plane dispatch, pool acquisition — pool
creation followed by the cluster-identity fetch — completes before any
task or guard is started. -/
theorem pool_acquired_before_unit_tasks (s : CPService) :
    acquisitionBeforeUnitStarts (start_control_plane s) = true := by
  cases s <;> decide

/-- C10: the node dispatch spawns its admin/health task under role
name "worker", not "node", while its logging is initialized with the
node-specific name "node-" followed by the node id. -/
theorem node_admin_role_is_worker (nodeId : String) :
    adminSpawnOf (start_node nodeId) = [.adminServer "worker" 0] ∧
    "worker" ≠ "node" ∧
    loggingNamesOf (start_node nodeId) = ["node-" ++ nodeId] :=
  ⟨rfl, by decide, rfl⟩

end Arroyo
